import Mathlib

/-!
Verification of the Lead Scoring & Campaign Assignment Engine of the
prospecting-intelligence database schema.  The definitions below are a shallow
embedding of the PL/pgSQL utility functions of the schema file
(`calculate_lead_score`, `update_prospect_stage_on_analysis`,
`calculate_engagement_score`, `get_optimal_campaign_assignment`,
`analyze_reply_basic`, `update_engagement_on_activity`) together with the
column domains declared by the relevant CHECK constraints.

Representation choices (all exact, no approximation):
* SQL `DECIMAL` values that are cast to `INTEGER` are modelled with explicit
  round-half-up division over `ℕ` (`pgRoundDiv`), which agrees with
  PostgreSQL's round-half-away-from-zero on the nonnegative quotients that
  occur in the code.
* `days_since_last_activity = EXTRACT(EPOCH FROM (NOW() - last_activity_at))/86400`
  is carried in seconds (`ℕ`); a comparison `days ≤ k` is the exact
  equivalent `seconds ≤ 86400 * k`.
* `delay_hours DECIMAL` of the campaign assignment is carried in minutes
  (`ℕ`): `0.5` h = `30`, `1` h = `60`, `2` h = `120`, `4` h = `240`,
  `24` h = `1440`; `GREATEST` becomes `max`.
* Nullable columns are `Option` types; SQL aggregates over a set of rows are
  folds over a `List` of rows.
-/

namespace ProspectIntel

/-- `companies.company_size_category` CHECK domain. -/
inductive SizeCategory
  | startup
  | small
  | medium
  | large
  | enterprise
  deriving DecidableEq

/-- `companies.status` CHECK domain (the prospect lifecycle stage). -/
inductive Stage
  | identified
  | analyzing
  | analyzed
  | contacted
  | qualified
  | disqualified
  | converted
  deriving DecidableEq

/-- `instantly_integrations.lead_temperature` CHECK domain. -/
inductive Temperature
  | cold
  | warm
  | hot
  | interested
  | qualified
  deriving DecidableEq

/-- `instantly_integrations.lead_status` CHECK domain. -/
inductive LeadStatus
  | active
  | paused
  | completed
  | unsubscribed
  | bounced
  | complained
  | replied
  deriving DecidableEq

/-- `instantly_email_activities.activity_type` CHECK domain. -/
inductive ActivityType
  | sent
  | delivered
  | opened
  | clicked
  | replied
  | bounced
  | unsubscribed
  | complained
  deriving DecidableEq

/-- PostgreSQL cast of the exact nonnegative quotient `p / q` from a numeric
value to `INTEGER`: round to the nearest integer, halves away from zero.  For
`q ≠ 0` this is `⌊p/q + 1/2⌋ = (2*p + q) / (2*q)` in integer division (the
guarded call sites only divide by positive counts). -/
def pgRoundDiv (p q : ℕ) : ℕ := (2 * p + q) / (2 * q)

/-- A row of `automation_opportunities` restricted to the columns read by the
scoring functions.  `priority_score INTEGER CHECK (priority_score BETWEEN 1
AND 100)` is nullable, as is `service_tier`. -/
structure AutomationOpportunity where
  priority_score : Option ℕ
  service_tier : Option String
  deriving DecidableEq

/-- A row of `website_analyses` restricted to the columns read here:
`scraping_status` and `analysis_version`. -/
structure WebsiteAnalysis where
  scraping_status : String
  analysis_version : ℕ
  deriving DecidableEq

/-- The per-company data read by `calculate_lead_score(p_company_id)`: the
`companies` row (its size category), the `automation_opportunities` rows, the
`website_analyses` rows, and the number of `customer_journey_analyses` rows
of that company.  Existence of this record is existence of the company row. -/
structure ProspectData where
  company_size_category : Option SizeCategory
  opportunities : List AutomationOpportunity
  website_analyses : List WebsiteAnalysis
  journey_analyses : ℕ
  deriving DecidableEq

/-- Company size scoring (0-25 points): the CASE expression over
`company_size_category`; `ELSE 5` covers `startup` and NULL. -/
def company_size_score : Option SizeCategory → ℕ
  | some SizeCategory.enterprise => 25
  | some SizeCategory.large => 20
  | some SizeCategory.medium => 15
  | some SizeCategory.small => 10
  | _ => 5

/-- Automation opportunity scoring (0-35 points):
`SELECT LEAST(35, COALESCE(AVG(priority_score), 0) * 0.35) INTO v_automation_score`.
`AVG` ranges over the non-NULL priority scores; with none, `COALESCE` gives 0.
The `LEAST` is taken on exact numerics and the assignment to the `INTEGER`
variable rounds: `avg * 0.35 ≥ 35` iff `sum * 7 ≥ 700 * n` iff
`sum ≥ 100 * n`, in which case the value is 35; otherwise it is the rounded
`(7 * sum) / (20 * n)`. -/
def automation_opportunity_score (opps : List AutomationOpportunity) : ℕ :=
  let scores := opps.filterMap (fun o => o.priority_score)
  if scores.length = 0 then 0
  else if 100 * scores.length ≤ scores.sum then 35
  else pgRoundDiv (7 * scores.sum) (20 * scores.length)

/-- The row set of
`SELECT 1 FROM website_analyses WHERE company_id = p AND scraping_status = 'completed'
 UNION
 SELECT 1 FROM customer_journey_analyses WHERE company_id = p`:
each branch projects the constant `1` and `UNION` (without `ALL`) removes
duplicate rows across the union, modelled by `List.dedup`. -/
def analysis_union_rows (d : ProspectData) : List ℕ :=
  let completed_web :=
    d.website_analyses.filter (fun wa => wa.scraping_status == "completed")
  (completed_web.map (fun _ => 1) ++ List.replicate d.journey_analyses 1).dedup

/-- Engagement scoring based on analysis completeness (0-25 points): the CASE
over `COUNT(*)` of `analysis_union_rows`. -/
def analysis_completeness_score (d : ProspectData) : ℕ :=
  let n := (analysis_union_rows d).length
  if 3 ≤ n then 25
  else if n = 2 then 20
  else if n = 1 then 15
  else 0

/-- Service fit scoring (0-15 points):
`LEAST(15, COUNT(*) * 5)` over opportunities with non-NULL `service_tier`. -/
def service_fit_score (opps : List AutomationOpportunity) : ℕ :=
  min 15 ((opps.filter (fun o => o.service_tier.isSome)).length * 5)

/-- `calculate_lead_score(p_company_id) RETURNS INTEGER`: the sum of the four
components, capped at 100 by `LEAST(100, v_score)`. -/
def calculate_lead_score (d : ProspectData) : ℤ :=
  let v_score : ℤ :=
    (company_size_score d.company_size_category : ℤ)
      + (automation_opportunity_score d.opportunities : ℤ)
      + (analysis_completeness_score d : ℤ)
      + (service_fit_score d.opportunities : ℤ)
  min 100 v_score

/-- The columns of an `instantly_integrations` row read or written by
`calculate_engagement_score` and the engagement trigger.
`seconds_since_last_activity` carries
`EXTRACT(EPOCH FROM (NOW() - last_activity_at))` (NULL when there has been no
activity); `active_days_last_30` carries
`COUNT(DISTINCT DATE(activity_timestamp))` over the activities of the
trailing 30 days. -/
structure IntegrationRecord where
  emails_sent : ℕ
  emails_opened : ℕ
  emails_clicked : ℕ
  emails_replied : ℕ
  emails_bounced : ℕ
  seconds_since_last_activity : Option ℕ
  active_days_last_30 : ℕ
  lead_temperature : Temperature
  lead_status : LeadStatus
  engagement_score : ℤ
  last_activity_at : ℕ
  deriving DecidableEq

/-- `calculate_engagement_score(p_integration_id) RETURNS INTEGER`.
Open-rate term: `LEAST(15, (opened/sent * 100 * 0.6)::INTEGER)` with
`100 * 0.6 = 60`; click-rate term: `LEAST(20, (clicked/opened * 100 *
6.67)::INTEGER)` with `100 * 6.67 = 667`; reply term `LEAST(25, replied *
25)`; bounce penalty `- bounced * 5`; recency bonus from
`days_since_last_activity` (day thresholds expressed in seconds); activity
frequency bonus `LEAST(20, active_days * 2)` when `active_days > 0`; final
clamp `GREATEST(0, LEAST(100, v_score))`. -/
def calculate_engagement_score (r : IntegrationRecord) : ℤ :=
  let base : ℤ :=
    if 0 < r.emails_sent then
      min 15 ((pgRoundDiv (r.emails_opened * 60) r.emails_sent : ℤ))
        + (if 0 < r.emails_opened then
            min 20 ((pgRoundDiv (r.emails_clicked * 667) r.emails_opened : ℤ))
          else 0)
        + min 25 ((r.emails_replied : ℤ) * 25)
        - (r.emails_bounced : ℤ) * 5
    else 0
  let recency : ℤ :=
    match r.seconds_since_last_activity with
    | none => 0
    | some secs =>
      if secs ≤ 86400 then 20
      else if secs ≤ 7 * 86400 then 15
      else if secs ≤ 30 * 86400 then 10
      else if secs ≤ 90 * 86400 then 5
      else 0
  let activity : ℤ :=
    if 0 < r.active_days_last_30 then min 20 ((r.active_days_last_30 : ℤ) * 2)
    else 0
  max 0 (min 100 (base + recency + activity))

/-- Lower-case a string character by character (`LOWER`). -/
def str_lower (s : String) : String := String.mk (s.data.map Char.toLower)

/-- `needle` occurs as a contiguous substring of the character list
(the containment semantics of matching a literal pattern, and of
`ILIKE '%needle%'` after lower-casing). -/
def contains_chars (needle : List Char) : List Char → Bool
  | [] => needle.isEmpty
  | c :: cs => needle.isPrefixOf (c :: cs) || contains_chars needle cs

/-- `p_industry ILIKE ANY(ARRAY['%legal%', '%healthcare%', '%financial%'])`:
case-insensitive substring containment of any of the three patterns. -/
def industry_is_regulated (p_industry : String) : Bool :=
  let l := (str_lower p_industry).data
  contains_chars "legal".data l || contains_chars "healthcare".data l
    || contains_chars "financial".data l

/-- The JSON object built by `get_optimal_campaign_assignment`.
`delay_minutes` carries `delay_hours DECIMAL` in minutes (see the header). -/
structure CampaignAssignment where
  campaign_id : String
  sequence_id : String
  delay_minutes : ℕ
  priority : String
  assignment_reason : String
  deriving DecidableEq

/-- `ROUND(p_roi_potential/1000)` (round half away from zero), used only in
the `assignment_reason` string. -/
def pg_round_thousands (z : ℤ) : ℤ :=
  if 0 ≤ z then (pgRoundDiv z.toNat 1000 : ℤ) else -(pgRoundDiv (-z).toNat 1000 : ℤ)

/-- The tier-selection IF/ELSIF chain of `get_optimal_campaign_assignment`
(evaluated before the industry and company-size adjustments), yielding
`(v_campaign_id, v_sequence_id, v_delay_minutes, v_priority)`; the defaults
initialised at the top of the function survive when no branch fires. -/
def tier_selection (p_lead_score p_roi_potential p_opportunities_count : ℤ) :
    String × String × ℕ × String :=
  if p_lead_score ≥ 80 ∨ p_roi_potential > 50000 then
    ("entelech_enterprise_vip", "seq_enterprise_executive", 30, "high")
  else if p_lead_score ≥ 60 ∨ (p_roi_potential > 25000 ∧ p_opportunities_count ≥ 2) then
    ("entelech_professional_priority", "seq_professional_priority", 60, "medium")
  else if p_lead_score ≥ 40 ∨ p_opportunities_count ≥ 1 then
    ("entelech_warm_prospects", "seq_warm_nurture", 240, "medium")
  else
    ("entelech_cold_outreach", "seq_cold_education", 1440, "low")

/-- `get_optimal_campaign_assignment(p_lead_score, p_roi_potential,
p_industry, p_company_size, p_opportunities_count) RETURNS JSON`: tier
selection, then the industry-specific adjustment (append `'_compliance'` to
the sequence id and raise the delay to `GREATEST(delay, 2 hours)`), then the
company-size adjustment (raise the delay to `GREATEST(delay, 4 hours)` for
`enterprise`/`large`), then the result object with its reason string. -/
def get_optimal_campaign_assignment (p_lead_score p_roi_potential : ℤ)
    (p_industry p_company_size : String) (p_opportunities_count : ℤ) :
    CampaignAssignment :=
  let t := tier_selection p_lead_score p_roi_potential p_opportunities_count
  let v_campaign_id := t.1
  let v_sequence_id := if industry_is_regulated p_industry then t.2.1 ++ "_compliance" else t.2.1
  let v_delay_minutes := if industry_is_regulated p_industry then max t.2.2.1 120 else t.2.2.1
  let v_delay_minutes :=
    if p_company_size = "enterprise" ∨ p_company_size = "large" then max v_delay_minutes 240
    else v_delay_minutes
  { campaign_id := v_campaign_id
    sequence_id := v_sequence_id
    delay_minutes := v_delay_minutes
    priority := t.2.2.2
    assignment_reason :=
      "Lead Score: " ++ toString p_lead_score ++ ", ROI: $"
        ++ toString (pg_round_thousands p_roi_potential) ++ "K, Opportunities: "
        ++ toString p_opportunities_count }

/-- The JSON object built by `analyze_reply_basic`. -/
structure ReplyAnalysis where
  sentiment : String
  intent : String
  confidence : String
  requires_human_review : Bool
  deriving DecidableEq

/-- `v_keywords_positive`. -/
def keywords_positive : List String :=
  ["interested", "yes", "sounds good", "tell me more", "schedule", "call",
   "meeting", "demo", "pricing", "learn more"]

/-- `v_keywords_negative`. -/
def keywords_negative : List String :=
  ["not interested", "no", "remove", "unsubscribe", "stop", "spam", "delete",
   "busy", "no thanks"]

/-- `v_keywords_meeting`. -/
def keywords_meeting : List String :=
  ["meeting", "call", "demo", "schedule", "chat", "discuss"]

/-- `v_keywords_pricing`. -/
def keywords_pricing : List String :=
  ["price", "cost", "pricing", "budget", "quote", "proposal"]

/-- `v_content_lower := LOWER(COALESCE(p_reply_content, ''))`, as characters. -/
def reply_content_lower (p_reply_content : Option String) : List Char :=
  (p_reply_content.getD "").data.map Char.toLower

/-- `content ~ ANY(keywords)`: the POSIX regex operator on an array of plain
literal patterns is containment of some keyword in the content. -/
def matches_any (content : List Char) (keywords : List String) : Bool :=
  keywords.any (fun k => contains_chars k.data content)

/-- `analyze_reply_basic(p_reply_content) RETURNS JSON`: sentiment from the
positive lexicon first, then the negative one; intent by the fixed
precedence meeting → pricing → `'remove|unsubscribe'` (an alternation of two
literals) → positive sentiment → negative sentiment → default; confidence
`'high'` iff either lexicon matched; review flag from
`v_sentiment IN ('positive', 'interested') OR v_intent = 'meeting_request'`. -/
def analyze_reply_basic (p_reply_content : Option String) : ReplyAnalysis :=
  let content := reply_content_lower p_reply_content
  let v_sentiment :=
    if matches_any content keywords_positive then "positive"
    else if matches_any content keywords_negative then "negative"
    else "neutral"
  let v_intent :=
    if matches_any content keywords_meeting then "meeting_request"
    else if matches_any content keywords_pricing then "pricing_inquiry"
    else if matches_any content ["remove", "unsubscribe"] then "unsubscribe_request"
    else if v_sentiment = "positive" then "interested"
    else if v_sentiment = "negative" then "not_interested"
    else "general_inquiry"
  { sentiment := v_sentiment
    intent := v_intent
    confidence :=
      if matches_any content (keywords_positive ++ keywords_negative) then "high"
      else "medium"
    requires_human_review :=
      v_sentiment == "positive" || v_sentiment == "interested"
        || v_intent == "meeting_request" }

/-- The CASE of the `UPDATE companies SET status = ...` statement of
`update_prospect_stage_on_analysis`: advance one step from `identified` or
`analyzing`, otherwise keep the stage. -/
def stage_case : Stage → Stage
  | Stage.identified => Stage.analyzing
  | Stage.analyzing => Stage.analyzed
  | s => s

/-- The effect of the trigger `update_prospect_stage_on_analysis` on the
company's stage: the updates run only under
`NEW.scraping_status = 'completed' OR NEW.analysis_version >
COALESCE(OLD.analysis_version, 0)` (with `old_version = none` on INSERT).
The trigger additionally refreshes `prospect_tracking.lead_score` via
`calculate_lead_score`, which does not touch the stage. -/
def update_prospect_stage_on_analysis (new_scraping_status : String)
    (new_version : ℕ) (old_version : Option ℕ) (status : Stage) : Stage :=
  if new_scraping_status = "completed" ∨ old_version.getD 0 < new_version then
    stage_case status
  else status

/-- Position of a stage along
identified → analyzing → analyzed → contacted → qualified → (disqualified | converted). -/
def stage_index : Stage → ℕ
  | Stage.identified => 0
  | Stage.analyzing => 1
  | Stage.analyzed => 2
  | Stage.contacted => 3
  | Stage.qualified => 4
  | Stage.disqualified => 5
  | Stage.converted => 6

/-- A row of `instantly_email_activities` restricted to the columns read by
the engagement trigger; `reply_sentiment`/`reply_intent` are nullable. -/
structure EmailActivity where
  activity_type : ActivityType
  reply_sentiment : Option String
  reply_intent : Option String
  activity_timestamp : ℕ
  deriving DecidableEq

/-- The effect of the trigger `update_engagement_on_activity` (AFTER INSERT
ON `instantly_email_activities`) on the integration row: for `opened`,
`clicked` or `replied` activities it recomputes the engagement score, updates
the temperature CASE and `last_activity_at`, and for `replied` it then
updates `lead_status`; any other activity type leaves the row untouched. -/
def update_engagement_on_activity (a : EmailActivity) (r : IntegrationRecord) :
    IntegrationRecord :=
  if a.activity_type = ActivityType.opened ∨ a.activity_type = ActivityType.clicked
      ∨ a.activity_type = ActivityType.replied then
    let r1 := { r with
      engagement_score := calculate_engagement_score r
      lead_temperature :=
        if a.activity_type = ActivityType.replied ∧ a.reply_sentiment = some "positive" then
          Temperature.hot
        else if a.activity_type = ActivityType.replied ∧ a.reply_sentiment = some "negative" then
          Temperature.cold
        else if a.activity_type = ActivityType.clicked then Temperature.warm
        else r.lead_temperature
      last_activity_at := a.activity_timestamp }
    if a.activity_type = ActivityType.replied then
      { r1 with
        lead_status :=
          if a.reply_sentiment = some "negative" ∨ a.reply_intent = some "unsubscribe_request" then
            LeadStatus.unsubscribed
          else if a.reply_sentiment = some "positive" ∨ a.reply_intent = some "interested" then
            LeadStatus.replied
          else r1.lead_status }
    else r1
  else r

/-- A prospect with exactly one completed website analysis and one customer
journey analysis: two distinct analysis types present. -/
def two_type_prospect : ProspectData :=
  { company_size_category := none
    opportunities := []
    website_analyses := [{ scraping_status := "completed", analysis_version := 1 }]
    journey_analyses := 1 }

/-- The integration metrics of spec scenario 3: sent=100, opened=50,
clicked=10, replied=1, bounced=2, last activity 0 days ago, active on 10
distinct days in the last 30. -/
def scenario3_integration : IntegrationRecord :=
  { emails_sent := 100
    emails_opened := 50
    emails_clicked := 10
    emails_replied := 1
    emails_bounced := 2
    seconds_since_last_activity := some 0
    active_days_last_30 := 10
    lead_temperature := Temperature.cold
    lead_status := LeadStatus.active
    engagement_score := 0
    last_activity_at := 0 }

/-- An integration row whose temperature is already `hot`. -/
def hot_integration : IntegrationRecord :=
  { emails_sent := 5
    emails_opened := 3
    emails_clicked := 2
    emails_replied := 1
    emails_bounced := 0
    seconds_since_last_activity := some 3600
    active_days_last_30 := 3
    lead_temperature := Temperature.hot
    lead_status := LeadStatus.active
    engagement_score := 80
    last_activity_at := 1000 }

/-- A `clicked` email activity (no reply fields). -/
def clicked_activity : EmailActivity :=
  { activity_type := ActivityType.clicked
    reply_sentiment := none
    reply_intent := none
    activity_timestamp := 2000 }

/-- A `sent` email activity. -/
def sent_activity : EmailActivity :=
  { activity_type := ActivityType.sent
    reply_sentiment := none
    reply_intent := none
    activity_timestamp := 2000 }

/-- An integration row used to instantiate the frame property. -/
def frame_integration : IntegrationRecord :=
  { emails_sent := 10
    emails_opened := 4
    emails_clicked := 1
    emails_replied := 0
    emails_bounced := 1
    seconds_since_last_activity := some 7200
    active_days_last_30 := 2
    lead_temperature := Temperature.warm
    lead_status := LeadStatus.active
    engagement_score := 33
    last_activity_at := 1500 }

/-! ### Theorems -/

theorem nodup_all_one_length_le (l : List ℕ) (hnd : l.Nodup)
    (h1 : ∀ x ∈ l, x = 1) : l.length ≤ 1 := by
  match l, hnd, h1 with
  | [], _, _ => simp
  | [a], _, _ => simp
  | a :: b :: t, hnd, h1 =>
    exfalso
    have ha : a = 1 := h1 a (by simp)
    have hb : b = 1 := h1 b (by simp)
    have hnotmem : a ∉ b :: t := (List.nodup_cons.mp hnd).1
    exact hnotmem (by simp [ha, hb])

theorem analysis_union_rows_all_one (d : ProspectData) :
    ∀ x ∈ analysis_union_rows d, x = 1 := by
  intro x hx
  unfold analysis_union_rows at hx
  rw [List.mem_dedup, List.mem_append] at hx
  rcases hx with h | h
  · rcases List.mem_map.mp h with ⟨w, _, hw⟩
    exact hw.symm
  · exact List.eq_of_mem_replicate h

/-- C1: for every prospect with a company record and every integration
record, `calculate_lead_score` and `calculate_engagement_score` return values
in the closed interval [0, 100]: the lead score is the `LEAST(100, ·)` cap of
a sum of four nonnegative components, and the engagement score is clamped by
`GREATEST(0, LEAST(100, ·))` even when bounce penalties drive the running
total negative. -/
theorem C1_scores_bounded (d : ProspectData) (r : IntegrationRecord) :
    (0 ≤ calculate_lead_score d ∧ calculate_lead_score d ≤ 100) ∧
    (0 ≤ calculate_engagement_score r ∧ calculate_engagement_score r ≤ 100) := by
  have hlead : calculate_lead_score d
      = min 100 ((company_size_score d.company_size_category : ℤ)
        + (automation_opportunity_score d.opportunities : ℤ)
        + (analysis_completeness_score d : ℤ)
        + (service_fit_score d.opportunities : ℤ)) := rfl
  refine ⟨⟨?_, ?_⟩, ?_, ?_⟩
  · rw [hlead]
    exact le_min (by norm_num) (by positivity)
  · rw [hlead]
    exact min_le_left _ _
  · exact le_max_left 0 _
  · exact max_le (by norm_num) (min_le_left _ _)

/-- C1 witness: the bounds instantiated at concrete records. -/
theorem C1_scores_bounded_witness :
    0 ≤ calculate_lead_score two_type_prospect ∧
    calculate_engagement_score scenario3_integration ≤ 100 :=
  ⟨(C1_scores_bounded two_type_prospect scenario3_integration).1.1,
   (C1_scores_bounded two_type_prospect scenario3_integration).2.2⟩

/-- C2: the analysis-completeness component.  The code computes `COUNT(*)`
over `SELECT 1 ... UNION SELECT 1 ...`, and `UNION` deduplicates the
constant-1 rows of both branches to at most one row, so the component is 15
whenever any completed website analysis or any journey analysis exists and 0
otherwise — the 20 and 25 branches of the CASE are unreachable.  In
particular a prospect with a completed website analysis and a journey
analysis (two distinct types) scores 15, not 20. -/
theorem C2_analysis_completeness_collapses :
    analysis_completeness_score two_type_prospect = 15 ∧
    ∀ d : ProspectData,
      analysis_completeness_score d = 15 ∨ analysis_completeness_score d = 0 := by
  refine ⟨by decide, fun d => ?_⟩
  have hlen : (analysis_union_rows d).length ≤ 1 :=
    nodup_all_one_length_le _ (List.nodup_dedup _) (analysis_union_rows_all_one d)
  rcases Nat.le_one_iff_eq_zero_or_eq_one.mp hlen with h | h
  · right
    simp [analysis_completeness_score, h]
  · left
    simp [analysis_completeness_score, h]

theorem assignment_projections (ls roi cnt : ℤ) (ind sz : String) :
    (get_optimal_campaign_assignment ls roi ind sz cnt).campaign_id
      = (tier_selection ls roi cnt).1 ∧
    (get_optimal_campaign_assignment ls roi ind sz cnt).priority
      = (tier_selection ls roi cnt).2.2.2 ∧
    (industry_is_regulated ind = false → ¬(sz = "enterprise" ∨ sz = "large") →
      (get_optimal_campaign_assignment ls roi ind sz cnt).delay_minutes
        = (tier_selection ls roi cnt).2.2.1) := by
  refine ⟨rfl, rfl, fun hreg hsz => ?_⟩
  simp [get_optimal_campaign_assignment, hreg, hsz]

/-- C3: the tier conditions of `get_optimal_campaign_assignment` are
evaluated top-down with first match winning: lead_score ≥ 80 or ROI > 50000
gives the enterprise campaign (delay 0.5 h = 30 min, priority high); else
lead_score ≥ 60 or (ROI > 25000 and ≥ 2 opportunities) gives the professional
campaign (1 h, medium); else lead_score ≥ 40 or ≥ 1 opportunity gives the
warm campaign (4 h, medium); else the cold defaults stand (24 h, low).  The
delay equalities hold whenever the post-selection industry/size overrides do
not fire.  In particular lead_score = 85, ROI = 60000 yields the enterprise
tier with delay 0.5 h and priority high. -/
theorem C3_assignment_decision_table (ls roi cnt : ℤ) (ind sz : String) :
    (ls ≥ 80 ∨ roi > 50000 →
      (get_optimal_campaign_assignment ls roi ind sz cnt).campaign_id
          = "entelech_enterprise_vip" ∧
      (get_optimal_campaign_assignment ls roi ind sz cnt).priority = "high" ∧
      (industry_is_regulated ind = false → ¬(sz = "enterprise" ∨ sz = "large") →
        (get_optimal_campaign_assignment ls roi ind sz cnt).delay_minutes = 30)) ∧
    (¬(ls ≥ 80 ∨ roi > 50000) → ls ≥ 60 ∨ (roi > 25000 ∧ cnt ≥ 2) →
      (get_optimal_campaign_assignment ls roi ind sz cnt).campaign_id
          = "entelech_professional_priority" ∧
      (get_optimal_campaign_assignment ls roi ind sz cnt).priority = "medium" ∧
      (industry_is_regulated ind = false → ¬(sz = "enterprise" ∨ sz = "large") →
        (get_optimal_campaign_assignment ls roi ind sz cnt).delay_minutes = 60)) ∧
    (¬(ls ≥ 80 ∨ roi > 50000) → ¬(ls ≥ 60 ∨ (roi > 25000 ∧ cnt ≥ 2)) →
        ls ≥ 40 ∨ cnt ≥ 1 →
      (get_optimal_campaign_assignment ls roi ind sz cnt).campaign_id
          = "entelech_warm_prospects" ∧
      (get_optimal_campaign_assignment ls roi ind sz cnt).priority = "medium" ∧
      (industry_is_regulated ind = false → ¬(sz = "enterprise" ∨ sz = "large") →
        (get_optimal_campaign_assignment ls roi ind sz cnt).delay_minutes = 240)) ∧
    (¬(ls ≥ 80 ∨ roi > 50000) → ¬(ls ≥ 60 ∨ (roi > 25000 ∧ cnt ≥ 2)) →
        ¬(ls ≥ 40 ∨ cnt ≥ 1) →
      (get_optimal_campaign_assignment ls roi ind sz cnt).campaign_id
          = "entelech_cold_outreach" ∧
      (get_optimal_campaign_assignment ls roi ind sz cnt).priority = "low" ∧
      (industry_is_regulated ind = false → ¬(sz = "enterprise" ∨ sz = "large") →
        (get_optimal_campaign_assignment ls roi ind sz cnt).delay_minutes = 1440)) ∧
    ((get_optimal_campaign_assignment 85 60000 "" "" 0).campaign_id
        = "entelech_enterprise_vip" ∧
      (get_optimal_campaign_assignment 85 60000 "" "" 0).delay_minutes = 30 ∧
      (get_optimal_campaign_assignment 85 60000 "" "" 0).priority = "high") := by
  obtain ⟨hcid, hprio, hdelay⟩ := assignment_projections ls roi cnt ind sz
  refine ⟨fun h1 => ?_, fun h1 h2 => ?_, fun h1 h2 h3 => ?_, fun h1 h2 h3 => ?_, by decide⟩
  · have ht : tier_selection ls roi cnt
        = ("entelech_enterprise_vip", "seq_enterprise_executive", 30, "high") := by
      unfold tier_selection
      rw [if_pos h1]
    exact ⟨by rw [hcid, ht], by rw [hprio, ht],
      fun ha hb => by rw [hdelay ha hb, ht]⟩
  · have ht : tier_selection ls roi cnt
        = ("entelech_professional_priority", "seq_professional_priority", 60, "medium") := by
      unfold tier_selection
      rw [if_neg h1, if_pos h2]
    exact ⟨by rw [hcid, ht], by rw [hprio, ht],
      fun ha hb => by rw [hdelay ha hb, ht]⟩
  · have ht : tier_selection ls roi cnt
        = ("entelech_warm_prospects", "seq_warm_nurture", 240, "medium") := by
      unfold tier_selection
      rw [if_neg h1, if_neg h2, if_pos h3]
    exact ⟨by rw [hcid, ht], by rw [hprio, ht],
      fun ha hb => by rw [hdelay ha hb, ht]⟩
  · have ht : tier_selection ls roi cnt
        = ("entelech_cold_outreach", "seq_cold_education", 1440, "low") := by
      unfold tier_selection
      rw [if_neg h1, if_neg h2, if_neg h3]
    exact ⟨by rw [hcid, ht], by rw [hprio, ht],
      fun ha hb => by rw [hdelay ha hb, ht]⟩

/-- C3 witness: the decision rows instantiated at concrete inputs. -/
theorem C3_assignment_decision_table_witness :
    (get_optimal_campaign_assignment 90 0 "" "" 0).campaign_id
        = "entelech_enterprise_vip" ∧
    (get_optimal_campaign_assignment 10 0 "" "" 0).campaign_id
        = "entelech_cold_outreach" ∧
    (get_optimal_campaign_assignment 10 0 "" "" 0).delay_minutes = 1440 :=
  ⟨((C3_assignment_decision_table 90 0 0 "" "").1 (by decide)).1,
   ((C3_assignment_decision_table 10 0 0 "" "").2.2.2.1
      (by decide) (by decide) (by decide)).1,
   (((C3_assignment_decision_table 10 0 0 "" "").2.2.2.1
      (by decide) (by decide) (by decide)).2.2 (by decide) (by decide))⟩

/-- C4: the analysis-completion trigger advances the stage exactly one step
along identified → analyzing → analyzed when it fires, leaves every other
stage unchanged (so it is idempotent at `analyzed`), and never moves a stage
backward. -/
theorem C4_stage_trigger_forward (ns : String) (nv : ℕ) (ov : Option ℕ)
    (s : Stage) :
    stage_index s ≤ stage_index (update_prospect_stage_on_analysis ns nv ov s) ∧
    (s ≠ Stage.identified → s ≠ Stage.analyzing →
      update_prospect_stage_on_analysis ns nv ov s = s) ∧
    ((ns = "completed" ∨ ov.getD 0 < nv) → s = Stage.identified →
      update_prospect_stage_on_analysis ns nv ov s = Stage.analyzing) ∧
    ((ns = "completed" ∨ ov.getD 0 < nv) → s = Stage.analyzing →
      update_prospect_stage_on_analysis ns nv ov s = Stage.analyzed) ∧
    update_prospect_stage_on_analysis ns nv ov Stage.analyzed = Stage.analyzed := by
  refine ⟨?_, ?_, ?_, ?_, ?_⟩
  · unfold update_prospect_stage_on_analysis
    split
    · cases s <;> simp [stage_case, stage_index]
    · exact le_refl _
  · intro h1 h2
    unfold update_prospect_stage_on_analysis
    split
    · cases s <;> simp_all [stage_case]
    · rfl
  · intro hf hs
    subst hs
    unfold update_prospect_stage_on_analysis
    rw [if_pos hf]
    rfl
  · intro hf hs
    subst hs
    unfold update_prospect_stage_on_analysis
    rw [if_pos hf]
    rfl
  · unfold update_prospect_stage_on_analysis
    split <;> rfl

/-- C4 witness: a firing trigger at `identified`, at `analyzing`, and the
no-op at `analyzed`. -/
theorem C4_stage_trigger_forward_witness :
    update_prospect_stage_on_analysis "completed" 1 none Stage.identified
        = Stage.analyzing ∧
    update_prospect_stage_on_analysis "completed" 2 (some 1) Stage.analyzing
        = Stage.analyzed ∧
    update_prospect_stage_on_analysis "completed" 1 none Stage.contacted
        = Stage.contacted :=
  ⟨(C4_stage_trigger_forward "completed" 1 none Stage.identified).2.2.1
      (Or.inl rfl) rfl,
   (C4_stage_trigger_forward "completed" 2 (some 1) Stage.analyzing).2.2.2.1
      (Or.inl rfl) rfl,
   (C4_stage_trigger_forward "completed" 1 none Stage.contacted).2.1
      (by decide) (by decide)⟩

/-- C5: the reply classifier is total over optional reply text — every input
yields a result whose sentiment, intent and confidence are drawn from the
documented value sets — and absent or empty content yields sentiment
`neutral`, intent `general_inquiry`, confidence `medium`, and
`requires_human_review = false`. -/
theorem C5_classifier_total_defaults :
    analyze_reply_basic none
      = ⟨"neutral", "general_inquiry", "medium", false⟩ ∧
    analyze_reply_basic (some "")
      = ⟨"neutral", "general_inquiry", "medium", false⟩ ∧
    ∀ c : Option String,
      ((analyze_reply_basic c).sentiment = "positive"
        ∨ (analyze_reply_basic c).sentiment = "negative"
        ∨ (analyze_reply_basic c).sentiment = "neutral") ∧
      ((analyze_reply_basic c).intent = "meeting_request"
        ∨ (analyze_reply_basic c).intent = "pricing_inquiry"
        ∨ (analyze_reply_basic c).intent = "unsubscribe_request"
        ∨ (analyze_reply_basic c).intent = "interested"
        ∨ (analyze_reply_basic c).intent = "not_interested"
        ∨ (analyze_reply_basic c).intent = "general_inquiry") ∧
      ((analyze_reply_basic c).confidence = "high"
        ∨ (analyze_reply_basic c).confidence = "medium") := by
  refine ⟨by decide, by decide, fun c => ?_⟩
  unfold analyze_reply_basic
  refine ⟨?_, ?_, ?_⟩ <;> (dsimp only; split_ifs <;> simp)

/-- C6: the engagement score of spec scenario 3 (sent=100, opened=50,
clicked=10, replied=1, bounced=2, last activity 0 days ago, 10 active days):
it is 90 — not 100 — because the open-rate term is `min(15, 30) = 15`, not
4.5, and the sum 15+20+25-10+20+20 = 90 is inside [0,100], so the clamp is
not exercised. -/
theorem C6_scenario3_counterexample :
    calculate_engagement_score scenario3_integration = 90 ∧
    calculate_engagement_score scenario3_integration ≠ 100 := by decide

/-- C6 (amended): for scenario 3 the engagement score equals 90, the sum of
open-rate term `min(15, round(50/100·100·0.6)) = 15`, click-rate term
`min(20, round(10/50·100·6.67)) = 20`, reply term 25, bounce penalty −10,
recency term 20 and activity term 20. -/
theorem C6_scenario3_score :
    calculate_engagement_score scenario3_integration = 90 ∧
    min 15 ((pgRoundDiv (50 * 60) 100 : ℤ)) = 15 ∧
    min 20 ((pgRoundDiv (10 * 667) 50 : ℤ)) = 20 ∧
    min 25 ((1 : ℤ) * 25) = 25 ∧
    ((2 : ℤ) * 5) = 10 ∧
    min 20 ((10 : ℤ) * 2) = 20 ∧
    (15 + 20 + 25 - 10 + 20 + 20 : ℤ) = 90 := by decide

/-- C7: at lead_score = 45 with industry "Healthcare Services" the warm tier
is selected and the compliance variant is appended, but the delay is 4 h
(240 min), not 2 h: the regulated override only raises the delay to
`GREATEST(4 h, 2 h) = 4 h`. -/
theorem C7_regulated_delay_counterexample :
    (get_optimal_campaign_assignment 45 0 "Healthcare Services" "small" 0).sequence_id
        = "seq_warm_nurture_compliance" ∧
    (get_optimal_campaign_assignment 45 0 "Healthcare Services" "small" 0).delay_minutes
        ≠ 120 := by decide

/-- C7 (amended): lead_score = 45, industry "Healthcare Services", no
qualifying ROI or opportunities: warm tier, compliance suffix on the
sequence id, priority medium, and the delay stays at the warm tier's 4 h
(240 min) because the regulated override takes `max(240, 120) = 240`. -/
theorem C7_regulated_warm_assignment :
    (get_optimal_campaign_assignment 45 0 "Healthcare Services" "small" 0).campaign_id
        = "entelech_warm_prospects" ∧
    (get_optimal_campaign_assignment 45 0 "Healthcare Services" "small" 0).sequence_id
        = "seq_warm_nurture_compliance" ∧
    (get_optimal_campaign_assignment 45 0 "Healthcare Services" "small" 0).delay_minutes
        = 240 ∧
    (get_optimal_campaign_assignment 45 0 "Healthcare Services" "small" 0).priority
        = "medium" ∧
    max 240 120 = 240 := by decide

/-- C8: a `clicked` activity arriving while the temperature is `hot` does not
leave it at `hot` — the temperature CASE has no already-hotter guard and
downgrades it to `warm`. -/
theorem C8_clicked_hot_counterexample :
    hot_integration.lead_temperature = Temperature.hot ∧
    (update_engagement_on_activity clicked_activity hot_integration).lead_temperature
        = Temperature.warm ∧
    (update_engagement_on_activity clicked_activity hot_integration).lead_temperature
        ≠ Temperature.hot := by decide

/-- C8 (amended): a `clicked` engagement event sets the temperature to `warm`
unconditionally, whatever the current temperature (including `hot`). -/
theorem C8_clicked_sets_warm (a : EmailActivity) (r : IntegrationRecord)
    (h : a.activity_type = ActivityType.clicked) :
    (update_engagement_on_activity a r).lead_temperature = Temperature.warm := by
  simp [update_engagement_on_activity, h]

/-- C8 witness: the amended rule at a concrete record. -/
theorem C8_clicked_sets_warm_witness :
    (update_engagement_on_activity clicked_activity frame_integration).lead_temperature
        = Temperature.warm :=
  C8_clicked_sets_warm clicked_activity frame_integration rfl

/-- C9: the positive lexicon is tested before the negative one, so content
matching both is classified positive; "not interested" (which contains the
positive term "interested") yields sentiment positive, intent interested,
confidence high, review flag true; and intent `not_interested` occurs only
when no positive-lexicon term occurs in the content. -/
theorem C9_positive_lexicon_precedence :
    analyze_reply_basic (some "not interested")
        = ⟨"positive", "interested", "high", true⟩ ∧
    (∀ c : Option String,
      matches_any (reply_content_lower c) keywords_positive = true →
      matches_any (reply_content_lower c) keywords_negative = true →
      (analyze_reply_basic c).sentiment = "positive") ∧
    (∀ c : Option String,
      (analyze_reply_basic c).intent = "not_interested" →
      matches_any (reply_content_lower c) keywords_positive = false) := by
  refine ⟨by decide, fun c hp _ => ?_, fun c h => ?_⟩
  · simp [analyze_reply_basic, hp]
  · cases hb : matches_any (reply_content_lower c) keywords_positive
    · rfl
    · exfalso
      simp [analyze_reply_basic, hb] at h
      split_ifs at h <;> exact absurd h (by decide)

/-- C9 witness: both lexicons match "not interested" and the theorem gives
sentiment positive; "stop" has intent `not_interested` and indeed matches no
positive term. -/
theorem C9_positive_lexicon_precedence_witness :
    (analyze_reply_basic (some "not interested")).sentiment = "positive" ∧
    matches_any (reply_content_lower (some "stop")) keywords_positive = false :=
  ⟨C9_positive_lexicon_precedence.2.1 (some "not interested") (by decide) (by decide),
   C9_positive_lexicon_precedence.2.2 (some "stop") (by decide)⟩

/-- C10: the engagement trigger mutates the integration row only for
`opened`, `clicked` and `replied` activities; a `sent`, `delivered`,
`bounced`, `unsubscribed` or `complained` activity leaves
`engagement_score`, `lead_temperature`, `lead_status` and `last_activity_at`
unchanged. -/
theorem C10_frame_non_engagement (a : EmailActivity) (r : IntegrationRecord)
    (h : a.activity_type = ActivityType.sent
      ∨ a.activity_type = ActivityType.delivered
      ∨ a.activity_type = ActivityType.bounced
      ∨ a.activity_type = ActivityType.unsubscribed
      ∨ a.activity_type = ActivityType.complained) :
    (update_engagement_on_activity a r).engagement_score = r.engagement_score ∧
    (update_engagement_on_activity a r).lead_temperature = r.lead_temperature ∧
    (update_engagement_on_activity a r).lead_status = r.lead_status ∧
    (update_engagement_on_activity a r).last_activity_at = r.last_activity_at := by
  have hid : update_engagement_on_activity a r = r := by
    unfold update_engagement_on_activity
    rcases h with h | h | h | h | h <;> rw [h] <;> simp
  rw [hid]
  exact ⟨rfl, rfl, rfl, rfl⟩

/-- C10 witness: a `sent` activity leaves the concrete row unchanged. -/
theorem C10_frame_non_engagement_witness :
    (update_engagement_on_activity sent_activity frame_integration).lead_temperature
        = frame_integration.lead_temperature ∧
    (update_engagement_on_activity sent_activity frame_integration).engagement_score
        = frame_integration.engagement_score :=
  ⟨(C10_frame_non_engagement sent_activity frame_integration (Or.inl rfl)).2.1,
   (C10_frame_non_engagement sent_activity frame_integration (Or.inl rfl)).1⟩

end ProspectIntel
